import Mathlib

/-!
Shallow embedding of `src/book_rec.py` (class `BookRecommender`).

Modelling conventions:
* polars DataFrames are lists of records; polars `filter` is `List.filter`,
  `Series.value_counts` counts occurrences per distinct value,
  `sort(..., descending=True)` is modelled by `List.insertionSort` with a
  ≥-relation (polars guarantees no particular tie order, any descending sort
  is a faithful model), and `head n` is `List.take n`.
* Python dicts are association lists consulted with `List.lookup`; the build
  loops insert sequentially and later keys overwrite earlier ones, so the
  built lists are reversed, making `List.lookup`'s first match the last
  insertion.  A failed subscript (`KeyError`) is modelled by `none`.
* int64 columns are `Int`.  The interactions `rating` column holds ratings
  0–5 (non-negative), modelled as `Nat`; on non-negative values the polars
  bitwise `&` on int64 coincides with `Nat.land` (`&&&`).
* Float64 arithmetic (the `score` column) is modelled by exact rationals.
* Console error messages printed by the source are modelled by the `Err`
  enumeration; a branch that prints nothing reports `none`.
* The TF-IDF vectorizer and cosine similarity (`search`, lines 55-57 and
  69-71) are abstracted as an arbitrary deterministic function from the
  normalized query to a similarity column, and `np.argpartition` (line 73),
  whose exact output is unspecified introselect behaviour, is abstracted as
  an arbitrary index permutation subject to the partition contract that
  numpy documents for `kth = -10`: the element landing at position
  `len - 10` separates smaller-or-equal values (before it) from
  greater-or-equal values (after it).
-/

/-- Error kinds of the specification, mapped onto the `print` calls of the
source: `duplicateError` is "Book is already selected" (line 83),
`validationError` is "Error: input is not a book id number" (line 90),
`emptySelectionError` is "Error: no books entered" (line 108),
`emptyNeighborhoodError` is "Error: no similar users found" (line 137),
`missingMappingError` is an uncaught `KeyError` from a dict subscript.
`rangeError` and `notFoundError` are named by the spec; the code never
reports them. -/
inductive Err where
  | validationError
  | rangeError
  | duplicateError
  | notFoundError
  | emptySelectionError
  | emptyNeighborhoodError
  | missingMappingError
  deriving Repr, DecidableEq

/-- Python whitespace characters stripped by `int(...)`. -/
def pyWhitespace (c : Char) : Bool :=
  c == ' ' || c == '\t' || c == '\n' || c == '\r' || c == '\x0b' || c == '\x0c'

/-- Python `int(s)` on ASCII decimal input: optional surrounding whitespace,
optional sign, then at least one digit; anything else raises `ValueError`
(modelled by `none`). -/
def pyInt (s : String) : Option Int :=
  let t := ((s.toList.dropWhile pyWhitespace).reverse.dropWhile pyWhitespace).reverse
  let signDigits : Int × List Char :=
    match t with
    | '-' :: rest => (-1, rest)
    | '+' :: rest => (1, rest)
    | _ => (1, t)
  if signDigits.2 = [] then none
  else if signDigits.2.all (fun c => c.isDigit) then
    some (signDigits.1 * ((signDigits.2.foldl (fun n c => 10 * n + (c.toNat - 48)) 0 : Nat) : Int))
  else none

/-- `BookRecommender.add_liked_book` (lines 81-95).  The mutable
`self.liked_books` is passed and returned explicitly.  The raw input string
is first checked against the list (duplicate), then parsed (`ValueError`),
then appended only when the parsed value is positive; the non-positive
branch prints nothing and appends nothing. -/
def add_liked_book (liked_books : List String) (input : String) :
    List String × Option Err :=
  if input ∈ liked_books then (liked_books, some .duplicateError)
  else
    match pyInt input with
    | none => (liked_books, some .validationError)
    | some tmp => if tmp > 0 then (liked_books ++ [input], none) else (liked_books, none)

/-- A raw line of `goodreads_books.json` after field extraction
(`parse_fields`, lines 15-22): the `ratings_count` field is still a string. -/
structure RawBook where
  book_id : String
  title : String
  ratings : String
  url : String
  deriving Repr, DecidableEq

/-- Title normalization of line 40:
`str.replace_all("[^a-zA-Z0-9 ]", "").str.to_lowercase()`. -/
def normTitle (s : String) : String :=
  String.mk ((s.toList.filter (fun c =>
    ('a' ≤ c && c ≤ 'z') || ('A' ≤ c && c ≤ 'Z') || ('0' ≤ c && c ≤ '9') || c == ' ')).map
      Char.toLower)

/-- A row of `self.titles` (lines 39-40). -/
structure ItemRecord where
  book_id : String
  title : String
  ratings : Int
  url : String
  norm_title : String
  deriving Repr, DecidableEq

/-- The catalog build loop (lines 24-40): keep a record only when its
`ratings` field parses as an integer (`ValueError` → `continue`) and the
parsed value exceeds 25, then attach the normalized title column. -/
def buildCatalog (raw : List RawBook) : List ItemRecord :=
  raw.filterMap (fun r =>
    match pyInt r.ratings with
    | none => none
    | some n =>
      if n > 25 then
        some { book_id := r.book_id, title := r.title, ratings := n, url := r.url,
               norm_title := normTitle r.title }
      else none)

/-- `self.interactions_to_book_data_map` built from the id-pair file
(lines 47-53): key `csv_id`, value `book_id`, later lines overwrite. -/
def interactions_to_book_data_map (pairs : List (String × String)) :
    List (String × String) :=
  pairs.reverse

/-- `self.book_data_to_interactions_map` (lines 47-53): key `book_id`,
value `csv_id`, later lines overwrite. -/
def book_data_to_interactions_map (pairs : List (String × String)) :
    List (String × String) :=
  (pairs.map (fun p => (p.2, p.1))).reverse

/-- Catalog-space id to interaction-space id
(`self.book_data_to_interactions_map[book]`). -/
def to_interaction_id (pairs : List (String × String)) (book_id : String) :
    Option String :=
  (book_data_to_interactions_map pairs).lookup book_id

/-- Interaction-space id to catalog-space id
(`self.interactions_to_book_data_map[csv_id]`). -/
def to_catalog_id (pairs : List (String × String)) (csv_id : String) :
    Option String :=
  (interactions_to_book_data_map pairs).lookup csv_id

/-- Query normalization of line 69:
`re.sub("[^a-z0-9 ]", "", input.lower())`. -/
def normQuery (s : String) : String :=
  String.mk ((s.toList.map Char.toLower).filter (fun c =>
    ('a' ≤ c && c ≤ 'z') || ('0' ≤ c && c ≤ '9') || c == ' '))

/-- numpy slice `[-50:]` applied to the argpartition result (line 73). -/
def last50 (idx : List Nat) : List Nat := idx.drop (idx.length - 50)

/-- `self.titles[indices]` for the candidate indices (line 74). -/
def searchCandidates (titles : List ItemRecord) (idx : List Nat) :
    List ItemRecord :=
  (last50 idx).filterMap (fun i => titles.get? i)

/-- Descending order on the `ratings` column (line 76 sorts by
`ratings, descending = True`). -/
def ratings_ge (a b : ItemRecord) : Prop := b.ratings ≤ a.ratings

instance : DecidableRel ratings_ge :=
  fun a b => inferInstanceAs (Decidable (b.ratings ≤ a.ratings))

instance : IsTotal ItemRecord ratings_ge := ⟨fun a b => le_total b.ratings a.ratings⟩

instance : IsTrans ItemRecord ratings_ge := ⟨fun _ _ _ h1 h2 => le_trans h2 h1⟩

/-- `BookRecommender.search` (lines 68-78).  `simFn` abstracts the fixed
vectorizer plus cosine similarity applied to the normalized query; `pick`
abstracts `np.argpartition(similarity, -10)` composed with nothing (the
`[-50:]` slice is `last50`).  Both are deterministic functions, as in the
source. -/
def search (titles : List ItemRecord) (simFn : String → List ℚ)
    (pick : List ℚ → List Nat) (input : String) :
    List (String × String × String) :=
  let idx := pick (simFn (normQuery input))
  ((List.insertionSort ratings_ge (searchCandidates titles (last50 idx))).map
    (fun r => (r.book_id, r.title, r.url))).take 10

/-- The contract numpy documents for `np.argpartition(sims, -10)`: the
result is a permutation of the index range such that the index landing at
position `len - 10` has its similarity in final sorted position — every
index placed before it has a smaller-or-equal similarity and every index
after it a greater-or-equal one.  Nothing more is guaranteed. -/
abbrev argpartitionValid (sims : List ℚ) (idx : List Nat) : Prop :=
  idx.Perm (List.range sims.length) ∧ 10 ≤ sims.length ∧
  (∀ i, i < idx.length - 10 →
    sims.getD (idx.getD i 0) 0 ≤ sims.getD (idx.getD (idx.length - 10) 0) 0) ∧
  (∀ i, i < idx.length → idx.length - 10 < i →
    sims.getD (idx.getD (idx.length - 10) 0) 0 ≤ sims.getD (idx.getD i 0) 0)

/-- A row of `self.interactions_df` (lines 43-44): user id and csv-space
book id are strings, the rating is 0–5. -/
structure Interaction where
  user_id : String
  csv_id : String
  rating : Nat
  deriving Repr, DecidableEq

/-- The mutable state of a `BookRecommender` instance together with its
immutable load-time structures. -/
structure RecState where
  liked_books : List String
  similar_users : List String
  interactions_df : List Interaction
  book_data_to_interactions_map : List (String × String)
  interactions_to_book_data_map : List (String × String)
  titles : List ItemRecord
  deriving Repr, DecidableEq

/-- Successive dict subscripts `m[k]` over a list of keys, as in the
translation loop of lines 112-114; a missing key raises `KeyError`,
modelled by `none`. -/
def lookupAll (keys : List String) (m : List (String × String)) :
    Option (List String) :=
  match keys with
  | [] => some []
  | k :: ks => (m.lookup k).bind (fun v => (lookupAll ks m).map (fun vs => v :: vs))

/-- `BookRecommender.find_similar_users` (lines 105-131).  All liked ids are
translated before any row is scanned; rows whose csv id is among the
translated ids contribute their user when the rating is at least 4 and the
user is not yet present. -/
def find_similar_users (st : RecState) : RecState × Option Err :=
  if st.liked_books = [] then (st, some .emptySelectionError)
  else
    match lookupAll st.liked_books st.book_data_to_interactions_map with
    | none => (st, some .missingMappingError)
    | some liked_books_mapped =>
      let filtered := st.interactions_df.filter
        (fun r => liked_books_mapped.contains r.csv_id)
      let similar := filtered.foldl
        (fun acc r =>
          if r.user_id ∈ acc then acc
          else if r.rating ≥ 4 then acc ++ [r.user_id] else acc)
        st.similar_users
      ({ st with similar_users := similar }, none)

/-- The two interaction filters of `find_recs` (lines 141-142).  Python
precedence makes line 141 parse as
`(is_in(similar_users) & rating) > 0`: polars upcasts the boolean to int64
and applies a bitwise and, so a row passes iff its user is a neighbour and
its rating is odd; line 142 then additionally requires `rating >= 3`. -/
def recsFilter (similar_users : List String) (ints : List Interaction) :
    List Interaction :=
  (ints.filter (fun r =>
    decide (0 < ((if similar_users.contains r.user_id then 1 else 0) &&& r.rating)))).filter
    (fun r => decide (3 ≤ r.rating))

/-- polars `Series.value_counts` (line 144): one row per distinct value with
its number of occurrences. -/
def value_counts (l : List String) : List (String × Nat) :=
  l.dedup.map (fun s => (s, l.count s))

/-- The `recs` counting step (lines 144-145): occurrences per csv-space book
id among the filtered neighbour interactions. -/
def neighborCounts (st : RecState) : List (String × Nat) :=
  value_counts ((recsFilter st.similar_users st.interactions_df).map (fun r => r.csv_id))

/-- The significance cutoff `recs["book_count"] > 25` (line 147). -/
def significantCounts (st : RecState) : List (String × Nat) :=
  (neighborCounts st).filter (fun p => decide (25 < p.2))

/-- A row of the joined `recs` frame (lines 149-158) before scoring: catalog
fields plus the neighbour count.  The `score` column added on line 161 is a
pointwise function of `book_count` and `ratings`, given by `score` below. -/
structure ScoredRec where
  book_id : String
  title : String
  url : String
  book_count : Nat
  ratings : Int
  deriving Repr, DecidableEq

/-- The score column of line 161:
`recs["book_count"] * (recs["book_count"] / recs["ratings"])`, with Float64
arithmetic modelled exactly in ℚ. -/
def score (r : ScoredRec) : ℚ :=
  (r.book_count : ℚ) * ((r.book_count : ℚ) / (r.ratings : ℚ))

/-- Lines 149-158: translate the surviving csv-space ids back to catalog
ids (`KeyError` on a missing id, hence `Option`), replace the `book_id`
column by the translated ids, and inner-join with `self.titles` on
`book_id`. -/
def scoredRecs (st : RecState) : Option (List ScoredRec) :=
  (lookupAll ((significantCounts st).map Prod.fst) st.interactions_to_book_data_map).map
    (fun bids =>
      (bids.zip ((significantCounts st).map Prod.snd)).flatMap (fun bc =>
        (st.titles.filter (fun t => t.book_id == bc.1)).map (fun t =>
          { book_id := t.book_id, title := t.title, url := t.url,
            book_count := bc.2, ratings := t.ratings })))

/-- Descending order on the score column (line 164 sorts by
`score, descending = True`). -/
def score_ge (a b : ScoredRec) : Prop := score b ≤ score a

instance : DecidableRel score_ge :=
  fun a b => inferInstanceAs (Decidable (score b ≤ score a))

instance : IsTotal ScoredRec score_ge := ⟨fun a b => le_total (score b) (score a)⟩

instance : IsTrans ScoredRec score_ge := ⟨fun _ _ _ h1 h2 => le_trans h2 h1⟩

/-- Lines 164-168: sort by descending score, drop books already liked, keep
the first 10. -/
def finalScored (st : RecState) : Option (List ScoredRec) :=
  (scoredRecs st).map (fun l =>
    ((List.insertionSort score_ge l).filter
      (fun r => !(st.liked_books.contains r.book_id))).take 10)

/-- `BookRecommender.find_recs` (lines 134-168): empty neighbourhood check,
then the scored pipeline projected to `(book_id, title, url)`. -/
def find_recs (st : RecState) : List (String × String × String) × Option Err :=
  if st.similar_users = [] then ([], some .emptyNeighborhoodError)
  else
    match finalScored st with
    | none => ([], some .missingMappingError)
    | some l => (l.map (fun r => (r.book_id, r.title, r.url)), none)

/-! ### Concrete data used by witnesses and counterexamples -/

/-- Thirty neighbour user ids. -/
def usersEx : List String := (List.range 30).map (fun i => "u" ++ Nat.repr i)

/-- Thirty neighbour ratings of csv-book `b1` and twenty-six of `b2`, all
with rating 3. -/
def intsEx : List Interaction :=
  ((List.range 30).map (fun i =>
    { user_id := "u" ++ Nat.repr i, csv_id := "b1", rating := 3 })) ++
  ((List.range 26).map (fun i =>
    { user_id := "u" ++ Nat.repr i, csv_id := "b2", rating := 3 }))

/-- Catalog rows: item `1` with popularity 300, item `2` with popularity
5000. -/
def titlesEx : List ItemRecord :=
  [{ book_id := "1", title := "Title A", ratings := 300, url := "urlA",
     norm_title := "title a" },
   { book_id := "2", title := "Title B", ratings := 5000, url := "urlB",
     norm_title := "title b" }]

/-- State realizing the scoring example: item `1` receives neighbour count
30 with popularity 300, item `2` count 26 with popularity 5000. -/
def stEx : RecState :=
  { liked_books := [], similar_users := usersEx, interactions_df := intsEx,
    book_data_to_interactions_map := [("1", "b1"), ("2", "b2")],
    interactions_to_book_data_map := [("b1", "1"), ("b2", "2")],
    titles := titlesEx }

/-- Scored row of item `1`: count 30, popularity 300, score 3. -/
def sExA : ScoredRec :=
  { book_id := "1", title := "Title A", url := "urlA", book_count := 30, ratings := 300 }

/-- Scored row of item `2`: count 26, popularity 5000, score 0.1352. -/
def sExB : ScoredRec :=
  { book_id := "2", title := "Title B", url := "urlB", book_count := 26, ratings := 5000 }

/-- The scored frame produced from `stEx`. -/
def sEx : List ScoredRec := [sExA, sExB]

/-- A similarity column of length 51: item 0 has similarity 5, item 1 has
similarity 3, items 2-40 have similarity 0, items 41-50 have similarity
10. -/
def simsEx : List ℚ := [5, 3] ++ List.replicate 39 0 ++ List.replicate 10 10

/-- The identity outcome of argpartition, valid for `simsEx` with
`kth = -10` (pivot at position 41, value 10). -/
def idxEx : List Nat := List.range 51

/-- Catalog item number `i` of the 51-item catalog. -/
def titleItem (i : Nat) : ItemRecord :=
  { book_id := Nat.repr i, title := Nat.repr i, ratings := 26, url := "",
    norm_title := Nat.repr i }

/-- A 51-item catalog matching `simsEx`. -/
def titles51 : List ItemRecord := (List.range 51).map titleItem

/-- Raw catalog rows: one parses with popularity 26, one with popularity 10
(dropped), one with an unparseable popularity (dropped). -/
def rawEx : List RawBook :=
  [{ book_id := "b26", title := "T", ratings := "26", url := "u" },
   { book_id := "b10", title := "T2", ratings := "10", url := "u2" },
   { book_id := "bx", title := "T3", ratings := "x", url := "u3" }]

/-- A fixed similarity function for witnesses. -/
def simFnEx : String → List ℚ := fun _ => [0]

/-- A fixed argpartition outcome for witnesses. -/
def pickEx : List ℚ → List Nat := fun _ => [0]

/-- A state with no liked books. -/
def stEmpty : RecState :=
  { liked_books := [], similar_users := [], interactions_df := [],
    book_data_to_interactions_map := [], interactions_to_book_data_map := [],
    titles := [] }

/-- A state whose liked book `9` has no interaction-space counterpart. -/
def stMissing : RecState :=
  { liked_books := ["9"], similar_users := ["u"],
    interactions_df := [{ user_id := "u", csv_id := "b", rating := 5 }],
    book_data_to_interactions_map := [], interactions_to_book_data_map := [],
    titles := [] }

/-- Ingested id pairs for the round-trip witness. -/
def pairsEx : List (String × String) := [("i1", "c1"), ("i2", "c2")]

/-! ### Helper lemmas -/

theorem add_liked_book_dup {l : List String} {s : String} (h : s ∈ l) :
    add_liked_book l s = (l, some Err.duplicateError) := by
  unfold add_liked_book
  rw [if_pos h]

theorem add_liked_book_invalid {l : List String} {s : String} (h1 : s ∉ l)
    (h2 : pyInt s = none) : add_liked_book l s = (l, some Err.validationError) := by
  unfold add_liked_book
  rw [if_neg h1, h2]

theorem add_liked_book_nonpos {l : List String} {s : String} {n : Int} (h1 : s ∉ l)
    (h2 : pyInt s = some n) (h3 : n ≤ 0) : add_liked_book l s = (l, none) := by
  unfold add_liked_book
  rw [if_neg h1, h2]
  simp only [if_neg (by omega : ¬ n > 0)]

theorem add_liked_book_ok {l : List String} {s : String} {n : Int} (h1 : s ∉ l)
    (h2 : pyInt s = some n) (h3 : 0 < n) : add_liked_book l s = (l ++ [s], none) := by
  unfold add_liked_book
  rw [if_neg h1, h2]
  simp only [if_pos (by omega : n > 0)]

theorem lookupAll_eq_none {keys : List String} {m : List (String × String)} {b : String}
    (hb : b ∈ keys) (hm : m.lookup b = none) : lookupAll keys m = none := by
  induction keys with
  | nil => cases hb
  | cons k ks ih =>
    rcases List.mem_cons.mp hb with h | h
    · subst h
      unfold lookupAll
      rw [hm]
      rfl
    · unfold lookupAll
      cases hk : m.lookup k with
      | none => rfl
      | some v => rw [ih h]; rfl

theorem lookup_mem {l : List (String × String)} {k v : String}
    (h : l.lookup k = some v) : (k, v) ∈ l := by
  induction l with
  | nil => simp [List.lookup] at h
  | cons p t ih =>
    obtain ⟨a, b⟩ := p
    rw [List.lookup_cons] at h
    cases hk : (k == a) with
    | true =>
      rw [hk] at h
      have hv : b = v := Option.some.inj h
      have ha : k = a := eq_of_beq hk
      subst hv; subst ha
      exact List.mem_cons_self _ _
    | false =>
      rw [hk] at h
      exact List.mem_cons_of_mem _ (ih h)

theorem lookup_isSome_of_mem {l : List (String × String)} {k v : String}
    (h : (k, v) ∈ l) : ∃ w, l.lookup k = some w := by
  induction l with
  | nil => cases h
  | cons p t ih =>
    obtain ⟨a, b⟩ := p
    rw [List.lookup_cons]
    cases hk : (k == a) with
    | true => exact ⟨b, rfl⟩
    | false =>
      rcases List.mem_cons.mp h with h1 | h1
      · have : k = a := congrArg Prod.fst h1
        rw [this] at hk
        simp at hk
      · exact ih h1

theorem nodup_fst_inj {l : List (String × String)} (h : (l.map Prod.fst).Nodup)
    {a b c : String} (h1 : (a, b) ∈ l) (h2 : (a, c) ∈ l) : b = c := by
  induction l with
  | nil => cases h1
  | cons p t ih =>
    rw [List.map_cons, List.nodup_cons] at h
    rcases List.mem_cons.mp h1 with e1 | m1
    · rcases List.mem_cons.mp h2 with e2 | m2
      · rw [← e1] at e2
        exact (Prod.mk.injEq _ _ _ _ |>.mp e2).2.symm
      · exfalso
        apply h.1
        rw [← e1]
        exact List.mem_map.2 ⟨(a, c), m2, rfl⟩
    · rcases List.mem_cons.mp h2 with e2 | m2
      · exfalso
        apply h.1
        rw [← e2]
        exact List.mem_map.2 ⟨(a, b), m1, rfl⟩
      · exact ih h.2 m1 m2

theorem buildCatalog_ratings {raw : List RawBook} {t : ItemRecord}
    (ht : t ∈ buildCatalog raw) : 25 < t.ratings := by
  unfold buildCatalog at ht
  obtain ⟨r, _, hf⟩ := List.mem_filterMap.mp ht
  split at hf
  · cases hf
  · split at hf
    · rename_i n _ hn
      have := Option.some.inj hf
      rw [← this]
      exact hn
    · cases hf

/-! ### Settled claims -/

/-- C1: the claim says an interaction record contributes to an item's
neighbour count iff its user is a similar user and its rating is at least 3,
in particular a neighbour's rating of 4 is counted.  The code disagrees:
line 141 parses as `(is_in(similar_users) & rating) > 0`, a bitwise test of
the rating's lowest bit, so only odd ratings survive the first filter.  A
neighbour's rating-4 record — which satisfies the claim's condition — is
dropped, while an identical rating-3 record is kept. -/
theorem find_recs_rating_four_not_counted :
    recsFilter ["u"] [{ user_id := "u", csv_id := "b", rating := 4 }] = [] ∧
    ["u"].contains "u" = true ∧ 3 ≤ 4 ∧
    recsFilter ["u"] [{ user_id := "u", csv_id := "b", rating := 3 }] =
      [{ user_id := "u", csv_id := "b", rating := 3 }] := by decide

/-- C2: the claim says the candidate set handed to the popularity re-sort is
the 50 catalog items of highest similarity as a set.  The code partitions
with `np.argpartition(similarity, -10)`, which guarantees a sorted position
only for the element landing at index `len - 10`: on the 51-item similarity
column `simsEx` the identity permutation satisfies that contract
(`argpartitionValid`), yet it leaves item 0 (similarity 5) outside the
50-element candidate set while item 1 (similarity 3) is inside, so the
candidate set is not the top-50 set. -/
theorem search_candidates_not_top_fifty :
    argpartitionValid simsEx idxEx ∧
    (∀ t ∈ searchCandidates titles51 idxEx, t.book_id ≠ "0") ∧
    titleItem 1 ∈ searchCandidates titles51 idxEx ∧
    simsEx.getD 1 0 < simsEx.getD 0 0 := by decide

/-- C3 counterexample: adding `"-1"` to an empty session parses to the
non-positive value `-1`, and the code then returns with the list unchanged
and *no* error reported (the claim says a `RangeError` kind is reported to
the caller in every failure case). -/
theorem add_liked_book_neg_silent : add_liked_book [] "-1" = ([], none) := by decide

/-- C3 (amended): `add_liked_book` fails with `ValidationError` when the
input does not parse as an integer, rejects a parsed value ≤ 0 *silently*
(the list is unchanged but no error kind is reported), fails with
`DuplicateError` when the raw string is already present, and otherwise
appends the item preserving insertion order; in every rejection the
liked-items list is exactly as before the call. -/
theorem add_liked_book_amended :
    (∀ (l : List String) (s : String), pyInt s = none → s ∉ l →
      add_liked_book l s = (l, some Err.validationError)) ∧
    (∀ (l : List String) (s : String) (n : Int), pyInt s = some n → n ≤ 0 → s ∉ l →
      add_liked_book l s = (l, none)) ∧
    (∀ (l : List String) (s : String), s ∈ l →
      add_liked_book l s = (l, some Err.duplicateError)) ∧
    (∀ (l : List String) (s : String) (n : Int), pyInt s = some n → 0 < n → s ∉ l →
      add_liked_book l s = (l ++ [s], none)) :=
  ⟨fun _ _ h2 h1 => add_liked_book_invalid h1 h2,
   fun _ _ _ h2 h3 h1 => add_liked_book_nonpos h1 h2 h3,
   fun _ _ h => add_liked_book_dup h,
   fun _ _ _ h2 h3 h1 => add_liked_book_ok h1 h2 h3⟩

/-- Witness for C3 (amended) at the spec's own examples: `""` and `"abc"`
report `ValidationError`, `"-1"` is silently rejected, a duplicate `"5"`
reports `DuplicateError`, and `"5"` is accepted into an empty session. -/
theorem add_liked_book_amended_witness :
    add_liked_book [] "" = ([], some Err.validationError) ∧
    add_liked_book [] "abc" = ([], some Err.validationError) ∧
    add_liked_book [] "-1" = ([], none) ∧
    add_liked_book ["5"] "5" = (["5"], some Err.duplicateError) ∧
    add_liked_book [] "5" = (["5"], none) :=
  ⟨add_liked_book_amended.1 [] "" (by decide) (by decide),
   add_liked_book_amended.1 [] "abc" (by decide) (by decide),
   add_liked_book_amended.2.1 [] "-1" (-1) (by decide) (by decide) (by decide),
   add_liked_book_amended.2.2.1 ["5"] "5" (by decide),
   by simpa using add_liked_book_amended.2.2.2 [] "5" 5 (by decide) (by decide) (by decide)⟩

/-- C10: the duplicate check compares raw input strings and runs before
integer parsing (an unparseable string already in the list still reports
`DuplicateError`), and two textually distinct inputs parsing to the same
positive integer are both accepted, leaving two entries for the same
item. -/
theorem add_liked_book_raw_string_duplicates :
    (∀ (l : List String) (s : String), s ∈ l →
      add_liked_book l s = (l, some Err.duplicateError)) ∧
    (∀ (l : List String) (s1 s2 : String) (n : Int), s1 ∉ l → s2 ∉ l → s2 ≠ s1 →
      pyInt s1 = some n → pyInt s2 = some n → 0 < n →
      add_liked_book (add_liked_book l s1).1 s2 = (l ++ [s1, s2], none)) := by
  refine ⟨fun _ _ h => add_liked_book_dup h, ?_⟩
  intro l s1 s2 n h1 h2 hne hp1 hp2 hpos
  rw [add_liked_book_ok h1 hp1 hpos]
  have h2' : s2 ∉ l ++ [s1] := by
    simp only [List.mem_append, List.mem_singleton]
    rintro (h | h)
    · exact h2 h
    · exact hne h
  rw [add_liked_book_ok h2' hp2 hpos]
  simp

/-- Witness for C10 at the claim's example: `"7"` and `"07"` both parse to
7 and are both accepted; a string already present is rejected as a duplicate
even though it cannot parse. -/
theorem add_liked_book_raw_string_duplicates_witness :
    add_liked_book ["abc"] "abc" = (["abc"], some Err.duplicateError) ∧
    add_liked_book (add_liked_book [] "7").1 "07" = (["7", "07"], none) :=
  ⟨add_liked_book_raw_string_duplicates.1 ["abc"] "abc" (by decide),
   by
     simpa using add_liked_book_raw_string_duplicates.2 [] "7" "07" 7 (by decide)
       (by decide) (by decide) (by decide) (by decide) (by decide)⟩

/-- C8: `find_similar_users` on a state with no liked books fails with
`EmptySelectionError` and returns the state completely unchanged (so an
empty similar-users set stays empty). -/
theorem find_similar_users_empty_selection (st : RecState) (h : st.liked_books = []) :
    find_similar_users st = (st, some Err.emptySelectionError) := by
  unfold find_similar_users
  rw [if_pos h]

/-- Witness for C8 on a concrete empty session. -/
theorem find_similar_users_empty_selection_witness :
    find_similar_users stEmpty = (stEmpty, some Err.emptySelectionError) :=
  find_similar_users_empty_selection stEmpty rfl

/-- C9: every liked catalog id is translated through the mapper before any
user is inserted, so when some liked item has no interaction-space
counterpart the operation fails with the propagated `MissingMappingError`
and the state — in particular the similar-users set — is exactly as
before. -/
theorem find_similar_users_missing_mapping (st : RecState) (b : String)
    (hb : b ∈ st.liked_books)
    (hm : st.book_data_to_interactions_map.lookup b = none) :
    find_similar_users st = (st, some Err.missingMappingError) := by
  have hne : st.liked_books ≠ [] := List.ne_nil_of_mem hb
  have hall : lookupAll st.liked_books st.book_data_to_interactions_map = none :=
    lookupAll_eq_none hb hm
  unfold find_similar_users
  rw [if_neg hne, hall]

/-- Witness for C9: a state liking book `"9"`, which the mapper does not
know, with a rating-5 interaction present that must not be scanned. -/
theorem find_similar_users_missing_mapping_witness :
    find_similar_users stMissing = (stMissing, some Err.missingMappingError) :=
  find_similar_users_missing_mapping stMissing "9" (by decide) (by decide)

/-- C6: `search` is insensitive to case and punctuation — any two queries
that agree after lowercasing and stripping every character outside
`[a-z0-9 ]` (that is, after `normQuery`) produce identical ordered result
sequences, because everything downstream of line 69 depends on the query
only through its normalized form. -/
theorem search_normalization_insensitive (titles : List ItemRecord)
    (simFn : String → List ℚ) (pick : List ℚ → List Nat) (q1 q2 : String)
    (h : normQuery q1 = normQuery q2) :
    search titles simFn pick q1 = search titles simFn pick q2 := by
  unfold search
  rw [h]

/-- Witness for C6 at the spec's example pair. -/
theorem search_normalization_insensitive_witness :
    normQuery "Harry Potter!" = normQuery "harry potter" ∧
    search titlesEx simFnEx pickEx "Harry Potter!" =
      search titlesEx simFnEx pickEx "harry potter" :=
  ⟨by decide,
   search_normalization_insensitive titlesEx simFnEx pickEx "Harry Potter!" "harry potter"
     (by decide)⟩

/-- C7: every record held in the catalog has popularity strictly greater
than 25 (records whose popularity fails to parse or is ≤ 25 are silently
dropped by the build loop), and hence every item returned by `search` comes
from a catalog record with popularity greater than 25. -/
theorem catalog_popularity_threshold (raw : List RawBook) :
    (∀ t ∈ buildCatalog raw, 25 < t.ratings) ∧
    (∀ (simFn : String → List ℚ) (pick : List ℚ → List Nat) (q : String)
      (r : String × String × String), r ∈ search (buildCatalog raw) simFn pick q →
      ∃ t, t ∈ buildCatalog raw ∧ r = (t.book_id, t.title, t.url) ∧ 25 < t.ratings) := by
  refine ⟨fun t ht => buildCatalog_ratings ht, ?_⟩
  intro simFn pick q r hr
  unfold search at hr
  have hr2 := List.mem_of_mem_take hr
  obtain ⟨t, ht, he⟩ := List.mem_map.1 hr2
  have ht2 : t ∈ searchCandidates (buildCatalog raw)
      (last50 (pick (simFn (normQuery q)))) :=
    (List.perm_insertionSort ratings_ge _).subset ht
  unfold searchCandidates at ht2
  obtain ⟨i, _, hget⟩ := List.mem_filterMap.mp ht2
  have hmem : t ∈ buildCatalog raw := List.get?_mem hget
  exact ⟨t, hmem, he.symm, buildCatalog_ratings hmem⟩

/-- Witness for C7: from three raw records (popularity 26, popularity 10,
unparseable popularity) only the first survives, and a concrete `search`
run returns exactly that item. -/
theorem catalog_popularity_threshold_witness :
    25 < ({ book_id := "b26", title := "T", ratings := 26, url := "u",
            norm_title := "t" } : ItemRecord).ratings ∧
    (∃ t, t ∈ buildCatalog rawEx ∧ ("b26", "T", "u") = (t.book_id, t.title, t.url) ∧
      25 < t.ratings) :=
  ⟨(catalog_popularity_threshold rawEx).1 _ (by decide),
   (catalog_popularity_threshold rawEx).2 simFnEx pickEx "x" _ (by decide)⟩

/-- C5: identifier round-trip.  Under the spec's bijectivity invariant on
the ingested pairs (no interaction-space id occurs twice),
`to_catalog_id (to_interaction_id catalog_id) = catalog_id` for every
ingested pair, even though the two dictionaries are built by independent
last-one-wins insertion. -/
theorem id_map_roundtrip (pairs : List (String × String))
    (hnd : (pairs.map Prod.fst).Nodup) (p : String × String) (hp : p ∈ pairs) :
    (to_interaction_id pairs p.2).bind (to_catalog_id pairs) = some p.2 := by
  have hmem : (p.2, p.1) ∈ book_data_to_interactions_map pairs := by
    unfold book_data_to_interactions_map
    rw [List.mem_reverse]
    exact List.mem_map.2 ⟨p, hp, rfl⟩
  obtain ⟨i0, hi0⟩ := lookup_isSome_of_mem hmem
  unfold to_interaction_id
  rw [hi0]
  show to_catalog_id pairs i0 = some p.2
  have h2 : (i0, p.2) ∈ pairs := by
    have hm := lookup_mem hi0
    unfold book_data_to_interactions_map at hm
    rw [List.mem_reverse] at hm
    obtain ⟨q, hq, he⟩ := List.mem_map.1 hm
    obtain ⟨e1, e2⟩ := Prod.mk.injEq _ _ _ _ |>.mp he
    have : q = (i0, p.2) := by
      rw [← e1, ← e2]
    rw [← this]
    exact hq
  obtain ⟨c0, hc0⟩ := lookup_isSome_of_mem
    (show (i0, p.2) ∈ interactions_to_book_data_map pairs by
      unfold interactions_to_book_data_map
      rwa [List.mem_reverse])
  unfold to_catalog_id
  rw [hc0]
  have h3 : (i0, c0) ∈ pairs := by
    have hm := lookup_mem hc0
    unfold interactions_to_book_data_map at hm
    rwa [List.mem_reverse] at hm
  rw [nodup_fst_inj hnd h3 h2]

/-- Witness for C5 on a two-pair map. -/
theorem id_map_roundtrip_witness :
    (pairsEx.map Prod.fst).Nodup ∧
    (to_interaction_id pairsEx "c1").bind (to_catalog_id pairsEx) = some "c1" :=
  ⟨by decide, id_map_roundtrip pairsEx (by decide) ("i1", "c1") (by decide)⟩

/-- C4: every row surviving the `neighbor_count > 25` cutoff carries the
score `book_count * (book_count / ratings)`, which equals
`neighbor_count² / popularity`; the final sequence is sorted by descending
score and `find_recs` returns exactly its projection to
`(book_id, title, url)`. -/
theorem find_recs_score_formula_and_order (st : RecState) (s l : List ScoredRec)
    (hne : st.similar_users ≠ []) (hs : scoredRecs st = some s)
    (hl : finalScored st = some l) :
    (∀ x ∈ s, score x = (x.book_count : ℚ) ^ 2 / (x.ratings : ℚ)) ∧
    List.Sorted score_ge l ∧
    (find_recs st).1 = l.map (fun r => (r.book_id, r.title, r.url)) := by
  refine ⟨?_, ?_, ?_⟩
  · intro x _
    unfold score
    rw [pow_two, mul_div_assoc]
  · have hl2 := hl
    rw [finalScored, hs, Option.map_some'] at hl2
    have := Option.some.inj hl2
    rw [← this]
    exact List.Pairwise.sublist (List.take_sublist _ _)
      (List.Pairwise.filter _ (List.sorted_insertionSort score_ge s))
  · unfold find_recs
    rw [if_neg hne, hl]

/-- Witness for C4 at the spec's scoring example: item `1` with neighbour
count 30 and popularity 300 (score 3) ranks above item `2` with neighbour
count 26 and popularity 5000 (score 0.1352). -/
theorem find_recs_score_formula_and_order_witness :
    stEx.similar_users ≠ [] ∧ scoredRecs stEx = some sEx ∧ finalScored stEx = some sEx ∧
    score sExA = ((sExA.book_count : ℚ)) ^ 2 / (sExA.ratings : ℚ) ∧
    List.Sorted score_ge sEx ∧
    (find_recs stEx).1 = [("1", "Title A", "urlA"), ("2", "Title B", "urlB")] := by
  have hne : stEx.similar_users ≠ [] := by decide
  have hs : scoredRecs stEx = some sEx := by decide
  have hAB : score_ge sExA sExB := by
    unfold score_ge score
    norm_num [sExA, sExB]
  have hl : finalScored stEx = some sEx := by
    rw [finalScored, hs, Option.map_some']
    simp [sEx, List.insertionSort, List.orderedInsert, hAB, stEx]
  have h := find_recs_score_formula_and_order stEx sEx sEx hne hs hl
  refine ⟨hne, hs, hl, h.1 sExA (by decide), h.2.1, ?_⟩
  rw [h.2.2]
  rfl
